import Mathlib

/-!
Verification development for the render-scheduling and interaction-dispatch
core of an interactive map renderer (mapbox-gl-js excerpt).

The JavaScript sources are embedded shallowly:

* `LngLat` (src/unnamed/part_008) becomes a structure over rational fields,
  with a `JSNum` type that makes the not-a-number case explicit, since the
  constructor validates against it.
* `Map` scheduling state (src/unnamed/part_009: `_update`, `_rerender`,
  `_render`, `loaded`, `setStyle`, `on`, `off`, `_makeQueryGeometry`)
  becomes explicit state-passing functions over a `MapState` record, with
  the external collaborators (style, painter, browser clock) abstracted as
  per-tick environment inputs.
-/

/-- A JavaScript number as far as the `LngLat` constructor observes it:
either not-a-number or an ordinary (here: rational) value.  Comparison
operators on `nan` are false, as in IEEE semantics observed by the code. -/
inductive JSNum where
  | nan : JSNum
  | num (q : ℚ) : JSNum
deriving DecidableEq, Repr

namespace JSNum

/-- `isNaN(x)` of JavaScript. -/
def isNaN : JSNum → Bool
  | nan => true
  | num _ => false

/-- `x > c` for a rational literal `c`; false when `x` is not-a-number. -/
def gtNum : JSNum → ℚ → Bool
  | nan, _ => false
  | num q, c => decide (q > c)

/-- `x < c` for a rational literal `c`; false when `x` is not-a-number. -/
def ltNum : JSNum → ℚ → Bool
  | nan, _ => false
  | num q, c => decide (q < c)

end JSNum

/-- A constructed `LngLat` value: the two fields stored by the constructor. -/
structure LngLat where
  lng : ℚ
  lat : ℚ
deriving DecidableEq, Repr

namespace LngLat

/-- Embedding of the `LngLat` constructor (src/unnamed/part_008, lines
27-36): throw when either argument is not-a-number; store `+lng`, `+lat`
(identity on numbers); then throw when the stored latitude is above 90 or
below -90.  Throwing is modelled as `Except.error` carrying the message. -/
def construct (lng lat : JSNum) : Except String LngLat :=
  if lng.isNaN || lat.isNaN then
    Except.error "Invalid LngLat object"
  else
    match lng, lat with
    | JSNum.num lg, JSNum.num lt =>
      if lt > 90 || lt < -90 then
        Except.error "Invalid LngLat latitude value: must be between -90 and 90"
      else
        Except.ok { lng := lg, lat := lt }
    | JSNum.nan, _ => Except.error "Invalid LngLat object"
    | _, JSNum.nan => Except.error "Invalid LngLat object"

/-- Modelled from the spec: the utility `wrap(n, min, max)` imported by
`LngLat.wrap` from `../util/util` is not part of the excerpt; the spec
describes it as normalizing `lng` into `[-180, 180)` via modular wrap.
This is the mathematical modular wrap of `n` into the half-open interval
`[mn, mx)`. -/
def wrapNum (n mn mx : ℚ) : ℚ :=
  n - (mx - mn) * ⌊(n - mn) / (mx - mn)⌋

/-- Embedding of `LngLat#wrap` (src/unnamed/part_008, lines 47-49): build
a new `LngLat` from the wrapped longitude and the unchanged latitude,
through the validating constructor.  The receiver is not modified: the
embedding is a pure function returning the fresh value. -/
def wrap (p : LngLat) : Except String LngLat :=
  construct (JSNum.num (wrapNum p.lng (-180) 180)) (JSNum.num p.lat)

end LngLat

/-- The scheduling-relevant fields of a `Map` instance
(src/unnamed/part_009).  `frame` holds the live platform frame handle when
one is scheduled (`this._frame`); `nextHandle` allocates handle identities;
`framesRequested` counts how many times `browser.frame` has been invoked
over the lifetime of the instance, so that claims about how many platform
frames get scheduled are claims about this counter. -/
structure MapState where
  hasStyle : Bool
  styleDirty : Bool
  sourcesDirty : Bool
  placementDirty : Bool
  crossFadingFactor : ℚ
  loadedFlag : Bool
  repaint : Bool
  frame : Option ℕ
  nextHandle : ℕ
  framesRequested : ℕ
deriving DecidableEq, Repr

namespace MapState

/-- Embedding of `Map#_rerender` (src/unnamed/part_009, lines 1700-1707):
when a style is present and no frame handle is live, request a platform
frame and record its handle. -/
def rerender (s : MapState) : MapState :=
  if s.hasStyle && s.frame.isNone then
    { s with
      frame := some s.nextHandle
      nextHandle := s.nextHandle + 1
      framesRequested := s.framesRequested + 1 }
  else s

/-- Embedding of `Map#_update` (src/unnamed/part_009, lines 1565-1572):
return unchanged when no style is present; otherwise accumulate
`styleDirty` with the argument, set `sourcesDirty`, and call `_rerender`.
The optional JavaScript argument left out corresponds to `updateStyle =
false` (both are falsy in the disjunction `this._styleDirty || updateStyle`). -/
def update (updateStyle : Bool) (s : MapState) : MapState :=
  if !s.hasStyle then s
  else
    rerender { s with
      styleDirty := s.styleDirty || updateStyle
      sourcesDirty := true }

/-- Embedding of `Map#loaded` (src/unnamed/part_009, lines 1549-1555):
false when either dirty flag is set, false when there is no style or the
style collaborator reports itself unloaded, else true.  `styleLoaded` is
the per-tick answer of the external `style.loaded()` collaborator. -/
def loadedFn (styleLoaded : Bool) (s : MapState) : Bool :=
  if s.styleDirty || s.sourcesDirty then false
  else if !s.hasStyle || !styleLoaded then false
  else true

end MapState

/-- The answers of the external collaborators consulted during one render
tick: the cross-fading factor computed by `EvaluationParameters`, whether
the style has active transitions, whether symbol placement reports itself
still dirty, and whether `style.loaded()` holds at the load check. -/
structure RenderEnv where
  factor : ℚ
  hasTransitions : Bool
  placementStillDirty : Bool
  styleLoaded : Bool
deriving DecidableEq, Repr

/-- What one execution of `Map#_render` produced: the successor state, the
local `crossFading` flag, the value of `this.loaded()` at the load check,
and whether the `load` event was fired in this tick. -/
structure RenderResult where
  state : MapState
  crossFading : Bool
  loadedMid : Bool
  firedLoad : Bool
deriving DecidableEq, Repr

namespace MapState

/-- Embedding of the body of `Map#_render` (src/unnamed/part_009, lines
1599-1670), with collaborator calls abstracted by `env`:

1. if a style is present and `styleDirty` is set, clear it, compute the
   factor, and when `factor !== 1 || factor !== this._crossFadingFactor`
   set the local `crossFading` and store the factor (lines 1607-1628);
2. if a style is present and `sourcesDirty` is set, clear it (1633-1636);
3. set `placementDirty` from `this.style && style._updatePlacement(...)`
   (line 1638);
4. fire `load` when `this.loaded()` holds and `_loaded` was not yet set,
   recording `_loaded = true` (lines 1651-1654);
5. re-raise `styleDirty` when the style has transitions or `crossFading`
   (lines 1656-1658);
6. call `_rerender` when any of `sourcesDirty`, `_repaint`, `styleDirty`,
   `placementDirty` holds (lines 1665-1667). -/
def render (env : RenderEnv) (s : MapState) : RenderResult :=
  let sc :=
    if s.hasStyle && s.styleDirty then
      let s1 := { s with styleDirty := false }
      if env.factor ≠ 1 ∨ env.factor ≠ s1.crossFadingFactor then
        ({ s1 with crossFadingFactor := env.factor }, true)
      else (s1, false)
    else (s, false)
  let s2 := sc.1
  let crossFading := sc.2
  let s3 := if s2.hasStyle && s2.sourcesDirty then { s2 with sourcesDirty := false } else s2
  let s4 := { s3 with placementDirty := s3.hasStyle && env.placementStillDirty }
  let lm := loadedFn env.styleLoaded s4
  let fired := lm && !s4.loadedFlag
  let s5 := if fired then { s4 with loadedFlag := true } else s4
  let s6 :=
    if s5.hasStyle && (env.hasTransitions || crossFading) then
      { s5 with styleDirty := true }
    else s5
  let s7 :=
    if s6.sourcesDirty || s6.repaint || s6.styleDirty || s6.placementDirty then
      rerender s6
    else s6
  { state := s7, crossFading := crossFading, loadedMid := lm, firedLoad := fired }

/-- One platform frame firing: the callback registered by `_rerender`
clears `this._frame` and then runs `_render`
(src/unnamed/part_009, lines 1702-1705). -/
def renderTick (env : RenderEnv) (s : MapState) : RenderResult :=
  render env { s with frame := none }

/-- The trace of render ticks driven by a list of per-tick collaborator
answers: for each tick, record the value of `this.loaded()` at the load
check and whether `load` fired. -/
def loadTrace : List RenderEnv → MapState → List (Bool × Bool)
  | [], _ => []
  | e :: es, s =>
    let r := renderTick e s
    (r.loadedMid, r.firedLoad) :: loadTrace es r.state

end MapState

/-- A raw pointer event as observed by the delegated callbacks installed
by `Map#on`: a `mousemove` at some screen point, or a `mouseout` of the
whole draw surface.  `hit` abstracts the test
`this.getLayer(layer) ? this.queryRenderedFeatures(e.point, ...) : []`
performed at the event point: `hit = true` means the layer exists and the
hit-test returned at least one feature. -/
inductive RawPointerEvent where
  | mousemove (hit : Bool) : RawPointerEvent
  | mouseout : RawPointerEvent
deriving DecidableEq, Repr

/-- Embedding of the `mouseenter`/`mouseover` delegate pair
(src/unnamed/part_009, lines 672-686) acting on the per-listener `mousein`
flag.  Returns the new flag and whether the user listener was invoked. -/
def enterStep : RawPointerEvent → Bool → Bool × Bool
  | RawPointerEvent.mousemove hit, mousein =>
    if !hit then (false, false)
    else if !mousein then (true, true)
    else (mousein, false)
  | RawPointerEvent.mouseout, _ => (false, false)

/-- Embedding of the `mouseleave`/`mouseout` delegate pair
(src/unnamed/part_009, lines 687-704) acting on the per-listener `mousein`
flag.  Returns the new flag and whether the user listener was invoked. -/
def leaveStep : RawPointerEvent → Bool → Bool × Bool
  | RawPointerEvent.mousemove hit, mousein =>
    if hit then (true, false)
    else if mousein then (false, true)
    else (mousein, false)
  | RawPointerEvent.mouseout, mousein =>
    if mousein then (false, true) else (mousein, false)

/-- How many times a delegate step function invokes the user listener over
a stream of raw pointer events, starting from a given `mousein` flag. -/
def countFires (step : RawPointerEvent → Bool → Bool × Bool) :
    List RawPointerEvent → Bool → ℕ
  | [], _ => 0
  | e :: es, st =>
    let r := step e st
    (if r.2 then 1 else 0) + countFires step es r.1

/-- Event types appearing in delegated registrations and raw
subscriptions. -/
inductive EvType where
  | mousemove | mouseout | mouseenter | mouseover | mouseleave
  | click | mousedown | contextmenu | touchstart | touchend
deriving DecidableEq, Repr

/-- `type === "mouseenter" || type === "mouseover"` (line 672). -/
def isEnterType : EvType → Bool
  | EvType.mouseenter => true
  | EvType.mouseover => true
  | _ => false

/-- `type === "mouseleave" || type === "mouseout"` (line 687). -/
def isLeaveType : EvType → Bool
  | EvType.mouseleave => true
  | EvType.mouseout => true
  | _ => false

/-- A delegated listener record (src/unnamed/part_009, lines 686, 704,
715): the layer id, the user listener identity, and the derived internal
callbacks keyed by the raw event type they were subscribed to.  Layer ids,
listener identities and callback identities are numbered. -/
structure DelegatedListener where
  layer : ℕ
  listener : ℕ
  delegates : List (EvType × ℕ)
deriving DecidableEq, Repr

/-- The dispatch-relevant state of a map: the `_delegatedListeners`
registry flattened in insertion order as `(eventType, record)` pairs, the
raw listener registry of the base event component, and a fresh-identity
allocator for derived callbacks. -/
structure DispatchState where
  delegated : List (EvType × DelegatedListener)
  rawListeners : List (EvType × ℕ)
  nextCallbackId : ℕ
deriving DecidableEq, Repr

/-- Remove the first element satisfying the predicate, keeping the rest. -/
def removeFirst (p : α → Bool) : List α → List α
  | [] => []
  | a :: l => if p a then l else a :: removeFirst p l

/-- Modelled from the spec: the base event component (`Evented`, §9: a
subscribe/unsubscribe/emit registry) is not part of the excerpt.
Subscribing appends the `(eventType, callback)` pair to the registry. -/
def rawOn (event : EvType) (cb : ℕ) (s : DispatchState) : DispatchState :=
  { s with rawListeners := s.rawListeners ++ [(event, cb)] }

/-- Modelled from the spec: unsubscribing removes the registered
`(eventType, callback)` pair from the base registry; a pair that is not
registered is left alone. -/
def rawOff (event : EvType) (cb : ℕ) (s : DispatchState) : DispatchState :=
  { s with
    rawListeners := removeFirst (fun q => q == (event, cb)) s.rawListeners }

/-- Embedding of the registration part of the layer-scoped `Map#on`
(src/unnamed/part_009, lines 666-728): build the delegated listener record
whose derived callbacks are `{mousemove, mouseout}` for enter/leave
synthesis and `{type}` otherwise, push it on `_delegatedListeners[type]`,
and subscribe each derived callback on the base event component. -/
def delegatedOn (type : EvType) (layer listener : ℕ) (s : DispatchState) :
    DispatchState :=
  let dels : List (EvType × ℕ) :=
    if isEnterType type || isLeaveType type then
      [(EvType.mousemove, s.nextCallbackId), (EvType.mouseout, s.nextCallbackId + 1)]
    else
      [(type, s.nextCallbackId)]
  let record : DelegatedListener := { layer := layer, listener := listener, delegates := dels }
  let s1 : DispatchState :=
    { s with
      delegated := s.delegated ++ [(type, record)]
      nextCallbackId := s.nextCallbackId + dels.length }
  dels.foldl (fun st q => rawOn q.1 q.2 st) s1

/-- Whether a registry entry matches the `(eventType, layerId,
listener-identity)` triple used by `Map#off` (line 759). -/
def matchesTriple (type : EvType) (layer listener : ℕ)
    (e : EvType × DelegatedListener) : Bool :=
  e.1 == type && e.2.layer == layer && e.2.listener == listener

/-- Embedding of the layer-scoped `Map#off` (src/unnamed/part_009, lines
750-770): scan the records registered under `type` in order; at the first
one whose layer and listener match, unsubscribe each derived callback from
the base event component and splice the record out; when none matches,
return unchanged. -/
def delegatedOff (type : EvType) (layer listener : ℕ) (s : DispatchState) :
    DispatchState :=
  match s.delegated.find? (matchesTriple type layer listener) with
  | none => s
  | some e =>
    let s1 := e.2.delegates.foldl (fun st q => rawOff q.1 q.2 st) s
    { s1 with
      delegated := removeFirst (matchesTriple type layer listener) s1.delegated }

/-- The style argument of `Map#setStyle`: absent (`null`), a URL string,
or an already-parsed style JSON object; payload contents are numbered. -/
inductive StyleInput where
  | empty : StyleInput
  | url (u : ℕ) : StyleInput
  | json (j : ℕ) : StyleInput
deriving DecidableEq, Repr

/-- The fields of the options argument of `Map#setStyle` that the gate
consults: whether `options.diff === false`, and whether
`options.localIdeographFontFamily` is set. -/
structure StyleOptions where
  diffFalse : Bool
  localFont : Bool
deriving DecidableEq, Repr

/-- How the fresh style object is loaded after a rebuild
(src/unnamed/part_009, lines 975-979). -/
inductive NewLoad where
  | loadURL (u : ℕ) : NewLoad
  | loadJSON (j : ℕ) : NewLoad
deriving DecidableEq, Repr

/-- The externally observable effects of one `Map#setStyle` call. -/
structure SetStyleOutcome where
  warned : Bool
  oldDetached : Bool
  oldRemoved : Bool
  updatedInPlace : Bool
  hasStyleAfter : Bool
  load : Option NewLoad
deriving DecidableEq, Repr

/-- `(!options || (options.diff !== false && !options.localIdeographFontFamily))
&& this.style` (src/unnamed/part_009, line 947). -/
def shouldTryDiff (hasStyle : Bool) (opts : Option StyleOptions) : Bool :=
  (match opts with
   | none => true
   | some o => !o.diffFalse && !o.localFont) && hasStyle

/-- The teardown-and-rebuild tail of `Map#setStyle` (src/unnamed/part_009,
lines 961-981): when a style exists, detach its evented parent and call
`style._remove()`; when the payload is absent, delete the style and stop;
otherwise construct a fresh style, attach it, and load it by URL or from
the parsed JSON. -/
def setStyleRebuild (hasStyle warned : Bool) (style : StyleInput) :
    SetStyleOutcome :=
  match style with
  | StyleInput.empty =>
    { warned := warned, oldDetached := hasStyle, oldRemoved := hasStyle,
      updatedInPlace := false, hasStyleAfter := false, load := none }
  | StyleInput.url u =>
    { warned := warned, oldDetached := hasStyle, oldRemoved := hasStyle,
      updatedInPlace := false, hasStyleAfter := true,
      load := some (NewLoad.loadURL u) }
  | StyleInput.json j =>
    { warned := warned, oldDetached := hasStyle, oldRemoved := hasStyle,
      updatedInPlace := false, hasStyleAfter := true,
      load := some (NewLoad.loadJSON j) }

/-- Embedding of `Map#setStyle` (src/unnamed/part_009, lines 946-982).
`setState` is the behavior of the `style.setState(style)` collaborator
call: `Except.ok b` for a normal return of `b`, `Except.error m` for a
throw.  When the diff gate is open and the payload is a parsed object, a
normal `setState` return ends the call (marking the map dirty via
`_update(true)` when changes were applied); a throw is caught, a warning
is emitted (`warnOnce`), and control falls through to the rebuild tail.
The call itself only ever returns normally, which the `Except.ok` result
records. -/
def setStyleFn (hasStyle : Bool) (opts : Option StyleOptions)
    (style : StyleInput) (setState : Except String Bool) :
    Except String SetStyleOutcome :=
  let isParsedObject : Bool :=
    match style with
    | StyleInput.json _ => true
    | _ => false
  if shouldTryDiff hasStyle opts && isParsedObject then
    match setState with
    | Except.ok true =>
      Except.ok
        { warned := false, oldDetached := false, oldRemoved := false,
          updatedInPlace := true, hasStyleAfter := hasStyle, load := none }
    | Except.ok false =>
      Except.ok
        { warned := false, oldDetached := false, oldRemoved := false,
          updatedInPlace := false, hasStyleAfter := hasStyle, load := none }
    | Except.error _ => Except.ok (setStyleRebuild hasStyle true style)
  else
    Except.ok (setStyleRebuild hasStyle false style)

/-- A screen-space point (`Point` of the source). -/
structure Pt where
  x : ℚ
  y : ℚ
deriving DecidableEq, Repr

/-- The value handed to `style.queryRenderedFeatures`: the screen-space
query geometry and, per screen point, its world-space projection. -/
structure QueryGeometry (α : Type) where
  viewport : List Pt
  worldCoordinate : List α
deriving DecidableEq, Repr

/-- The geometry argument of `Map#queryRenderedFeatures` after overload
resolution: omitted, a single point, or a two-point box. -/
inductive QueryInput where
  | omitted : QueryInput
  | single (p : Pt) : QueryInput
  | box (p0 p1 : Pt) : QueryInput
deriving DecidableEq, Repr

/-- Embedding of `Map#_makeQueryGeometry` (src/unnamed/part_009, lines
872-903).  An omitted geometry becomes the box from `(0, 0)` to
`(width, height)`; a point stays a one-element geometry; a box becomes the
closed polygon of its four corners with the first repeated; the world
coordinates are the image of the screen geometry under
`transform.pointCoordinate`, abstracted as `pointCoordinate`. -/
def makeQueryGeometry {α : Type} (width height : ℚ) (pointCoordinate : Pt → α)
    (input : QueryInput) : QueryGeometry α :=
  let pointOrBox : Sum Pt (Pt × Pt) :=
    match input with
    | QueryInput.omitted => Sum.inr (⟨0, 0⟩, ⟨width, height⟩)
    | QueryInput.single p => Sum.inl p
    | QueryInput.box p0 p1 => Sum.inr (p0, p1)
  let qg : List Pt :=
    match pointOrBox with
    | Sum.inl p => [p]
    | Sum.inr (p0, p1) => [p0, ⟨p1.x, p0.y⟩, p1, ⟨p0.x, p1.y⟩, p0]
  { viewport := qg, worldCoordinate := qg.map pointCoordinate }

/-- Embedding of the dispatch in `Map#queryRenderedFeatures`
(src/unnamed/part_009, lines 857-865): with no style, return no query;
otherwise hand `_makeQueryGeometry` of the geometry argument to the
feature-query collaborator. -/
def queryHandedToStyle {α : Type} (hasStyle : Bool) (width height : ℚ)
    (pointCoordinate : Pt → α) (input : QueryInput) :
    Option (QueryGeometry α) :=
  if hasStyle then some (makeQueryGeometry width height pointCoordinate input)
  else none

/-- Whether a fallible computation returned normally. -/
def exceptOk {ε α : Type} : Except ε α → Bool
  | Except.ok _ => true
  | Except.error _ => false

/-- C6: the `LngLat` constructor fails exactly when the longitude is
not-a-number, the latitude is not-a-number, or the absolute latitude
exceeds 90; `LngLat(NaN, 10)` and `LngLat(10, 95)` both fail; and every
construction from finite longitude and latitude with absolute latitude at
most 90 succeeds, storing both fields unchanged. -/
theorem construct_invalid_coordinate :
    (∀ lg lt : JSNum,
      exceptOk (LngLat.construct lg lt) = false ↔
        (lg.isNaN = true ∨ lt.isNaN = true ∨
          ∃ q : ℚ, lt = JSNum.num q ∧ 90 < |q|)) ∧
    exceptOk (LngLat.construct JSNum.nan (JSNum.num 10)) = false ∧
    exceptOk (LngLat.construct (JSNum.num 10) (JSNum.num 95)) = false ∧
    (∀ q r : ℚ, |r| ≤ 90 →
      LngLat.construct (JSNum.num q) (JSNum.num r) =
        Except.ok { lng := q, lat := r }) := by
  refine ⟨?_, by decide, by decide, ?_⟩
  · intro lg lt
    cases lg with
    | nan => simp [LngLat.construct, JSNum.isNaN, exceptOk]
    | num a =>
      cases lt with
      | nan => simp [LngLat.construct, JSNum.isNaN, exceptOk]
      | num r =>
        constructor
        · intro h
          refine Or.inr (Or.inr ⟨r, rfl, ?_⟩)
          by_contra hle
          push_neg at hle
          have h1 : ¬ r > 90 := not_lt.mpr ((abs_le.mp hle).2)
          have h2 : ¬ r < -90 := not_lt.mpr ((abs_le.mp hle).1)
          simp [LngLat.construct, JSNum.isNaN, h1, h2, exceptOk] at h
        · intro h
          rcases h with h | h | h
          · simp [JSNum.isNaN] at h
          · simp [JSNum.isNaN] at h
          · obtain ⟨q, hq, habs⟩ := h
            have hrq : r = q := by injection hq
            subst hrq
            have hd : r > 90 ∨ r < -90 := by
              rcases lt_abs.mp habs with h1 | h1
              · exact Or.inl h1
              · exact Or.inr (by linarith)
            rcases hd with h1 | h1 <;>
              simp [LngLat.construct, JSNum.isNaN, h1, exceptOk]
  · intro q r hr
    have h1 : ¬ r > 90 := not_lt.mpr ((abs_le.mp hr).2)
    have h2 : ¬ r < -90 := not_lt.mpr ((abs_le.mp hr).1)
    simp [LngLat.construct, JSNum.isNaN, h1, h2]

/-- Witness for C6 at concrete finite coordinates. -/
theorem construct_invalid_coordinate_witness :
    |(7 : ℚ)| ≤ 90 ∧
    LngLat.construct (JSNum.num 5) (JSNum.num 7) =
      Except.ok { lng := 5, lat := 7 } :=
  ⟨by norm_num, construct_invalid_coordinate.2.2.2 5 7 (by norm_num)⟩

/-- The modular wrap into `[-180, 180)` lands in `[-180, 180)` and differs
from its argument by an integer multiple of 360. -/
theorem wrapNum_mem_Ico (n : ℚ) :
    -180 ≤ LngLat.wrapNum n (-180) 180 ∧ LngLat.wrapNum n (-180) 180 < 180 ∧
      ∃ k : ℤ, n - LngLat.wrapNum n (-180) 180 = 360 * k := by
  have h360 : (0 : ℚ) < 360 := by norm_num
  have hle : ((⌊(n + 180) / 360⌋ : ℤ) : ℚ) ≤ (n + 180) / 360 :=
    Int.floor_le ((n + 180) / 360)
  have hlt : (n + 180) / 360 < (⌊(n + 180) / 360⌋ : ℚ) + 1 :=
    Int.lt_floor_add_one ((n + 180) / 360)
  have hle2 : ((⌊(n + 180) / 360⌋ : ℤ) : ℚ) * 360 ≤ n + 180 := by
    rw [← le_div_iff₀ h360]
    exact hle
  have hlt2 : n + 180 < (((⌊(n + 180) / 360⌋ : ℤ) : ℚ) + 1) * 360 := by
    rw [← div_lt_iff₀ h360]
    exact hlt
  have hnum : LngLat.wrapNum n (-180) 180 = n - 360 * ⌊(n + 180) / 360⌋ := by
    unfold LngLat.wrapNum
    norm_num
  refine ⟨?_, ?_, ⟨⌊(n + 180) / 360⌋, ?_⟩⟩
  · rw [hnum]; linarith
  · rw [hnum]; linarith
  · rw [hnum]; ring

/-- C7: for every valid point (absolute latitude at most 90), `wrap`
succeeds and returns a point with the same latitude and with the longitude
wrapped into the half-open interval `[-180, 180)`, congruent to the
original longitude modulo 360; the receiver is left untouched (the
embedding is a pure function).  In particular wrapping `(200, 10)` yields
longitude `-160`. -/
theorem wrap_normalizes_lng :
    (∀ p : LngLat, |p.lat| ≤ 90 →
      ∃ q : LngLat, p.wrap = Except.ok q ∧ q.lat = p.lat ∧
        -180 ≤ q.lng ∧ q.lng < 180 ∧
        ∃ k : ℤ, p.lng - q.lng = 360 * k) ∧
    LngLat.wrap { lng := 200, lat := 10 } =
      Except.ok { lng := -160, lat := 10 } := by
  constructor
  · intro p hlat
    refine ⟨{ lng := LngLat.wrapNum p.lng (-180) 180, lat := p.lat }, ?_, rfl,
      (wrapNum_mem_Ico p.lng).1, (wrapNum_mem_Ico p.lng).2.1,
      (wrapNum_mem_Ico p.lng).2.2⟩
    have h1 : ¬ p.lat > 90 := not_lt.mpr ((abs_le.mp hlat).2)
    have h2 : ¬ p.lat < -90 := not_lt.mpr ((abs_le.mp hlat).1)
    simp [LngLat.wrap, LngLat.construct, JSNum.isNaN, h1, h2]
  · have hfl : ⌊((200 : ℚ) - -180) / (180 - -180)⌋ = 1 := by
      rw [Int.floor_eq_iff]
      norm_num
    simp only [LngLat.wrap, LngLat.wrapNum, hfl, LngLat.construct, JSNum.isNaN]
    norm_num

/-- Witness for C7 at the concrete point `(200, 10)`. -/
theorem wrap_normalizes_lng_witness :
    |(LngLat.mk 200 10).lat| ≤ 90 ∧
    ∃ q : LngLat, (LngLat.mk 200 10).wrap = Except.ok q ∧
      q.lat = (LngLat.mk 200 10).lat ∧
      -180 ≤ q.lng ∧ q.lng < 180 ∧
      ∃ k : ℤ, (LngLat.mk 200 10).lng - q.lng = 360 * k :=
  ⟨by norm_num, wrap_normalizes_lng.1 (LngLat.mk 200 10) (by norm_num)⟩

/-- C9: the query geometry handed to the feature-query collaborator is the
full-viewport closed box polygon when the geometry is omitted, the single
point for a point query, the closed 5-point polygon of the box corners for
a two-point box, and in every case the world coordinates are the image of
the screen geometry under `pointCoordinate`. -/
theorem makeQueryGeometry_spec {α : Type} (width height : ℚ) (pc : Pt → α) :
    (makeQueryGeometry width height pc QueryInput.omitted).viewport =
      [⟨0, 0⟩, ⟨width, 0⟩, ⟨width, height⟩, ⟨0, height⟩, ⟨0, 0⟩] ∧
    (∀ p : Pt,
      (makeQueryGeometry width height pc (QueryInput.single p)).viewport = [p]) ∧
    (∀ p0 p1 : Pt,
      (makeQueryGeometry width height pc (QueryInput.box p0 p1)).viewport =
        [p0, ⟨p1.x, p0.y⟩, p1, ⟨p0.x, p1.y⟩, p0]) ∧
    (∀ g : QueryInput,
      (makeQueryGeometry width height pc g).worldCoordinate =
        (makeQueryGeometry width height pc g).viewport.map pc) ∧
    (∀ g : QueryInput,
      queryHandedToStyle true width height pc g =
        some (makeQueryGeometry width height pc g)) := by
  refine ⟨rfl, fun p => rfl, fun p0 p1 => rfl, fun g => ?_, fun g => rfl⟩
  cases g <;> rfl

/-- C10: with no style object present, `_update` returns the state
unchanged (no dirty flag set, no frame scheduled) and `_rerender` never
schedules a frame; and `setStyle` with an absent payload always leaves the
map with no style object. -/
theorem no_style_no_frame (s : MapState) (b : Bool)
    (hs : s.hasStyle = false) :
    MapState.update b s = s ∧
    MapState.rerender s = s ∧
    (∀ (hasStyle : Bool) (opts : Option StyleOptions)
        (setState : Except String Bool),
      ∃ o : SetStyleOutcome,
        setStyleFn hasStyle opts StyleInput.empty setState = Except.ok o ∧
        o.hasStyleAfter = false) := by
  refine ⟨?_, ?_, ?_⟩
  · simp [MapState.update, hs]
  · simp [MapState.rerender, hs]
  · intro hasStyle opts setState
    refine ⟨setStyleRebuild hasStyle false StyleInput.empty, ?_, rfl⟩
    simp [setStyleFn]

/-- Witness for C10 at a concrete style-less map state. -/
theorem no_style_no_frame_witness :
    (MapState.mk false false false false 1 false false none 0 0).hasStyle
      = false ∧
    (MapState.update true (MapState.mk false false false false 1 false false none 0 0) =
        MapState.mk false false false false 1 false false none 0 0 ∧
      MapState.rerender (MapState.mk false false false false 1 false false none 0 0) =
        MapState.mk false false false false 1 false false none 0 0 ∧
      (∀ (hasStyle : Bool) (opts : Option StyleOptions)
          (setState : Except String Bool),
        ∃ o : SetStyleOutcome,
          setStyleFn hasStyle opts StyleInput.empty setState = Except.ok o ∧
          o.hasStyleAfter = false)) :=
  ⟨rfl, no_style_no_frame (MapState.mk false false false false 1 false false none 0 0) true rfl⟩

/-- C3: when a style is present, diffing was not disabled, and the payload
is a parsed object, a throwing `style.setState` is caught: the call still
returns normally, a warning is emitted, the current style is detached and
released, and a fresh style object is loaded from the parsed payload. -/
theorem setStyle_diff_failure_falls_back (opts : Option StyleOptions)
    (j : ℕ) (msg : String) (hdiff : shouldTryDiff true opts = true) :
    setStyleFn true opts (StyleInput.json j) (Except.error msg) =
      Except.ok
        { warned := true, oldDetached := true, oldRemoved := true,
          updatedInPlace := false, hasStyleAfter := true,
          load := some (NewLoad.loadJSON j) } := by
  simp [setStyleFn, hdiff, setStyleRebuild]

/-- Witness for C3: no options object, payload 0, a concrete message. -/
theorem setStyle_diff_failure_falls_back_witness :
    shouldTryDiff true none = true ∧
    setStyleFn true none (StyleInput.json 0) (Except.error "diff failed") =
      Except.ok
        { warned := true, oldDetached := true, oldRemoved := true,
          updatedInPlace := false, hasStyleAfter := true,
          load := some (NewLoad.loadJSON 0) } :=
  ⟨rfl, setStyle_diff_failure_falls_back none 0 "diff failed" rfl⟩

/-- While the `mousein` flag is set, a stream of hitting `mousemove`
events never invokes the enter listener again. -/
theorem enter_run_from_inside (es : List RawPointerEvent)
    (h : ∀ e ∈ es, e = RawPointerEvent.mousemove true) :
    countFires enterStep es true = 0 := by
  induction es with
  | nil => rfl
  | cons e es ih =>
    have he := h e (List.mem_cons_self e es)
    subst he
    have ih2 := ih (fun x hx => h x (List.mem_cons_of_mem _ hx))
    simp [countFires, enterStep, ih2]

/-- Over any contiguous stream of hitting `mousemove` events, the enter
listener is invoked at most once, from any starting flag. -/
theorem enter_run_count (st : Bool) (es : List RawPointerEvent)
    (h : ∀ e ∈ es, e = RawPointerEvent.mousemove true) :
    countFires enterStep es st ≤ 1 := by
  cases st with
  | true => simp [enter_run_from_inside es h]
  | false =>
    cases es with
    | nil => simp [countFires]
    | cons e es =>
      have he := h e (List.mem_cons_self e es)
      subst he
      have h2 : ∀ x ∈ es, x = RawPointerEvent.mousemove true :=
        fun x hx => h x (List.mem_cons_of_mem _ hx)
      simp [countFires, enterStep, enter_run_from_inside es h2]

/-- While the `mousein` flag is clear, a stream of non-hitting events
(`mousemove` off the features, or raw `mouseout`) never invokes the leave
listener. -/
theorem leave_run_from_outside (es : List RawPointerEvent)
    (h : ∀ e ∈ es,
      e = RawPointerEvent.mousemove false ∨ e = RawPointerEvent.mouseout) :
    countFires leaveStep es false = 0 := by
  induction es with
  | nil => rfl
  | cons e es ih =>
    have ih2 := ih (fun x hx => h x (List.mem_cons_of_mem _ hx))
    rcases h e (List.mem_cons_self e es) with he | he <;> subst he <;>
      simp [countFires, leaveStep, ih2]

/-- Over any contiguous stream of non-hitting events, the leave listener
is invoked at most once, from any starting flag. -/
theorem leave_run_count (st : Bool) (es : List RawPointerEvent)
    (h : ∀ e ∈ es,
      e = RawPointerEvent.mousemove false ∨ e = RawPointerEvent.mouseout) :
    countFires leaveStep es st ≤ 1 := by
  cases st with
  | false => simp [leave_run_from_outside es h]
  | true =>
    cases es with
    | nil => simp [countFires]
    | cons e es =>
      have h2 : ∀ x ∈ es,
          x = RawPointerEvent.mousemove false ∨ x = RawPointerEvent.mouseout :=
        fun x hx => h x (List.mem_cons_of_mem _ hx)
      rcases h e (List.mem_cons_self e es) with he | he <;> subst he <;>
        simp [countFires, leaveStep, leave_run_from_outside es h2]

/-- C4: the synthesized enter event fires at most once per contiguous
dwell during which the hit-test reports features under the pointer, and
the synthesized leave fires at most once per contiguous exit (a stream of
off-feature moves and raw `mouseout` events, including a raw `mouseout`
fired twice in a row). -/
theorem enter_leave_fire_once :
    (∀ (st : Bool) (es : List RawPointerEvent),
      (∀ e ∈ es, e = RawPointerEvent.mousemove true) →
      countFires enterStep es st ≤ 1) ∧
    (∀ (st : Bool) (es : List RawPointerEvent),
      (∀ e ∈ es,
        e = RawPointerEvent.mousemove false ∨ e = RawPointerEvent.mouseout) →
      countFires leaveStep es st ≤ 1) :=
  ⟨enter_run_count, leave_run_count⟩

/-- Witness for C4: two hitting moves in a row fire enter at most once;
two raw `mouseout` events in a row fire leave at most once. -/
theorem enter_leave_fire_once_witness :
    (∀ e ∈ [RawPointerEvent.mousemove true, RawPointerEvent.mousemove true],
      e = RawPointerEvent.mousemove true) ∧
    countFires enterStep
      [RawPointerEvent.mousemove true, RawPointerEvent.mousemove true] false ≤ 1 ∧
    (∀ e ∈ [RawPointerEvent.mouseout, RawPointerEvent.mouseout],
      e = RawPointerEvent.mousemove false ∨ e = RawPointerEvent.mouseout) ∧
    countFires leaveStep
      [RawPointerEvent.mouseout, RawPointerEvent.mouseout] true ≤ 1 :=
  ⟨by decide, enter_leave_fire_once.1 false _ (by decide),
   by decide, enter_leave_fire_once.2 true _ (by decide)⟩

/-- With a style present and a frame handle already live, `_update` only
accumulates the dirty flags: `_rerender` declines to schedule. -/
theorem update_framed (b : Bool) (s : MapState) (h : s.hasStyle = true)
    (hf : s.frame.isSome = true) :
    MapState.update b s =
      { s with styleDirty := s.styleDirty || b, sourcesDirty := true } := by
  have hn : s.frame.isNone = false := by
    cases hF : s.frame
    · rw [hF] at hf
      simp at hf
    · simp
  simp [MapState.update, MapState.rerender, h, hn]

/-- Folding `_update` calls while a frame handle is live leaves the frame
and the request counter untouched and only accumulates `styleDirty`. -/
theorem foldl_update_framed (bs : List Bool) (s : MapState)
    (h : s.hasStyle = true) (hf : s.frame.isSome = true)
    (hsd : s.sourcesDirty = true) :
    bs.foldl (fun st c => MapState.update c st) s =
      { s with styleDirty := s.styleDirty || bs.any id } := by
  induction bs generalizing s with
  | nil =>
    simp only [List.foldl_nil, List.any_nil, Bool.or_false]
  | cons b bs ih =>
    rw [List.foldl_cons, update_framed b s h hf]
    rw [ih { s with styleDirty := s.styleDirty || b, sourcesDirty := true } h hf rfl]
    obtain ⟨hS, sD, srcD, plD, cf, ld, rp, fr, nh, fq⟩ := s
    simp_all [Bool.or_assoc]

/-- C1: with a style present, no frame scheduled, and `styleDirty` clear,
any nonempty synchronous burst of `_update` calls schedules exactly one
platform frame (the request counter rises by one and a single handle is
live), and at frame entry `sourcesDirty` holds while `styleDirty` holds
iff some call in the burst passed `styleChanged = true`. -/
theorem update_coalesces_single_frame (s : MapState) (b : Bool)
    (rest : List Bool) (h : s.hasStyle = true) (hf : s.frame = none)
    (hd : s.styleDirty = false) :
    ((b :: rest).foldl (fun st c => MapState.update c st) s).framesRequested
        = s.framesRequested + 1 ∧
    ((b :: rest).foldl (fun st c => MapState.update c st) s).frame
        = some s.nextHandle ∧
    ((b :: rest).foldl (fun st c => MapState.update c st) s).sourcesDirty
        = true ∧
    ((b :: rest).foldl (fun st c => MapState.update c st) s).styleDirty
        = (b :: rest).any id := by
  obtain ⟨hS, sD, srcD, plD, cf, ld, rp, fr, nh, fq⟩ := s
  subst h hf hd
  have h1 : MapState.update b
      (MapState.mk true false srcD plD cf ld rp none nh fq) =
      MapState.mk true b true plD cf ld rp (some nh) (nh + 1) (fq + 1) := by
    simp [MapState.update, MapState.rerender]
  rw [List.foldl_cons, h1,
    foldl_update_framed rest
      (MapState.mk true b true plD cf ld rp (some nh) (nh + 1) (fq + 1))
      rfl rfl rfl]
  simp [List.any_cons]

/-- Witness for C1: two synchronous `_update` calls, the first with
`styleChanged = true`, on a freshly idle map with a style. -/
theorem update_coalesces_single_frame_witness :
    (MapState.mk true false false false 1 false false none 0 0).hasStyle
        = true ∧
    (MapState.mk true false false false 1 false false none 0 0).frame
        = none ∧
    (MapState.mk true false false false 1 false false none 0 0).styleDirty
        = false ∧
    (([true, false].foldl (fun st c => MapState.update c st)
        (MapState.mk true false false false 1 false false none 0 0)).framesRequested
        = (MapState.mk true false false false 1 false false none 0 0).framesRequested + 1 ∧
      ([true, false].foldl (fun st c => MapState.update c st)
        (MapState.mk true false false false 1 false false none 0 0)).frame
        = some (MapState.mk true false false false 1 false false none 0 0).nextHandle ∧
      ([true, false].foldl (fun st c => MapState.update c st)
        (MapState.mk true false false false 1 false false none 0 0)).sourcesDirty
        = true ∧
      ([true, false].foldl (fun st c => MapState.update c st)
        (MapState.mk true false false false 1 false false none 0 0)).styleDirty
        = [true, false].any id) :=
  ⟨rfl, rfl, rfl,
    update_coalesces_single_frame
      (MapState.mk true false false false 1 false false none 0 0)
      true [false] rfl rfl rfl⟩

/-- Counterexample to C5 as stated: in a tick where `styleDirty` was set,
the computed factor equals 1 (not mid-transition), yet `crossFading` is
set, because the factor differs from the previously stored cross-fading
factor (here 2).  So `crossFading` is not equivalent to `factor ≠ 1`. -/
theorem crossFading_not_iff_factor_ne_one :
    ¬ (((MapState.renderTick (RenderEnv.mk 1 false false false)
          (MapState.mk true true false false 2 false false none 0 0)).crossFading
            = true) ↔
        (RenderEnv.mk 1 false false false).factor ≠ 1) := by
  intro hiff
  have h1 : (MapState.renderTick (RenderEnv.mk 1 false false false)
      (MapState.mk true true false false 2 false false none 0 0)).crossFading
        = true := by decide
  exact (hiff.mp h1) rfl

/-- C5 (amended): in a render tick in which `styleDirty` was set, the
needs-another-frame signal `crossFading` is set iff the computed factor
differs from 1 or differs from the previously stored cross-fading factor;
whenever it is set, `styleDirty` is raised again at the end of the tick. -/
theorem crossFading_condition (env : RenderEnv) (s : MapState)
    (h : s.hasStyle = true) (hd : s.styleDirty = true) :
    (MapState.renderTick env s).crossFading =
      decide (env.factor ≠ 1 ∨ env.factor ≠ s.crossFadingFactor) ∧
    ((MapState.renderTick env s).crossFading = true →
      (MapState.renderTick env s).state.styleDirty = true) := by
  obtain ⟨f, ht, pd, sl⟩ := env
  obtain ⟨hS, sD, srcD, plD, cf, ld, rp, fr, nh, fq⟩ := s
  subst h hd
  by_cases hc : f ≠ 1 ∨ f ≠ cf
  · refine ⟨by simp [MapState.renderTick, MapState.render, hc], fun _ => ?_⟩
    cases srcD <;> cases ld <;> cases rp <;> cases ht <;> cases pd <;> cases sl <;>
      simp [MapState.renderTick, MapState.render, MapState.rerender,
        MapState.loadedFn, hc]
  · refine ⟨by simp [MapState.renderTick, MapState.render, hc], fun hcf => ?_⟩
    simp [MapState.renderTick, MapState.render, hc] at hcf

/-- Witness for the amended C5 at a concrete mid-transition tick. -/
theorem crossFading_condition_witness :
    (MapState.mk true true false false 1 false false none 0 0).hasStyle = true ∧
    (MapState.mk true true false false 1 false false none 0 0).styleDirty = true ∧
    ((MapState.renderTick (RenderEnv.mk 2 false false false)
        (MapState.mk true true false false 1 false false none 0 0)).crossFading =
      decide ((RenderEnv.mk 2 false false false).factor ≠ 1 ∨
        (RenderEnv.mk 2 false false false).factor ≠
          (MapState.mk true true false false 1 false false none 0 0).crossFadingFactor) ∧
      ((MapState.renderTick (RenderEnv.mk 2 false false false)
          (MapState.mk true true false false 1 false false none 0 0)).crossFading = true →
        (MapState.renderTick (RenderEnv.mk 2 false false false)
          (MapState.mk true true false false 1 false false none 0 0)).state.styleDirty
            = true)) :=
  ⟨rfl, rfl,
    crossFading_condition (RenderEnv.mk 2 false false false)
      (MapState.mk true true false false 1 false false none 0 0) rfl rfl⟩

/-- `_rerender` never changes the `_loaded` flag. -/
theorem rerender_loadedFlag (s : MapState) :
    (MapState.rerender s).loadedFlag = s.loadedFlag := by
  unfold MapState.rerender
  split <;> rfl

/-- In a render tick, the `load` event fires exactly when `this.loaded()`
holds at the load check and the `_loaded` flag was still clear at tick
entry. -/
theorem renderTick_fired_eq (env : RenderEnv) (s : MapState) :
    (MapState.renderTick env s).firedLoad =
      ((MapState.renderTick env s).loadedMid && !s.loadedFlag) := by
  simp [MapState.renderTick, MapState.render, apply_ite Prod.fst,
    apply_ite MapState.loadedFlag]

/-- After a render tick the `_loaded` flag holds iff it held before or the
tick fired `load`. -/
theorem renderTick_state_loadedFlag (env : RenderEnv) (s : MapState) :
    (MapState.renderTick env s).state.loadedFlag =
      ((MapState.renderTick env s).firedLoad || s.loadedFlag) := by
  simp [MapState.renderTick, MapState.render, rerender_loadedFlag,
    apply_ite Prod.fst, apply_ite MapState.loadedFlag]

/-- Once the `_loaded` flag is set, no later tick ever fires `load`. -/
theorem loadTrace_no_fire (es : List RenderEnv) (s : MapState)
    (h : s.loadedFlag = true) :
    ∀ i lm fd, (MapState.loadTrace es s).get? i = some (lm, fd) →
      fd = false := by
  induction es generalizing s with
  | nil =>
    intro i lm fd hg
    simp [MapState.loadTrace] at hg
  | cons e es ih =>
    intro i lm fd hg
    have hfe := renderTick_fired_eq e s
    rw [h] at hfe
    simp only [Bool.not_true, Bool.and_false] at hfe
    cases i with
    | zero =>
      simp only [MapState.loadTrace, List.get?_cons_zero, Option.some.injEq,
        Prod.mk.injEq] at hg
      rw [← hg.2, hfe]
    | succ i =>
      simp only [MapState.loadTrace, List.get?_cons_succ] at hg
      have hflag : (MapState.renderTick e s).state.loadedFlag = true := by
        rw [renderTick_state_loadedFlag, h, Bool.or_true]
      exact ih (MapState.renderTick e s).state hflag i lm fd hg

/-- C2: starting with the `_loaded` flag clear, over any sequence of
render ticks the `load` event fires in tick `i` iff `this.loaded()` holds
at the load check of tick `i` and held at no earlier tick; hence it fires
at the end of the first tick in which `loaded()` is true and never again,
even if `loaded()` stays true or becomes true again. -/
theorem load_fires_once (envs : List RenderEnv) (s : MapState)
    (h : s.loadedFlag = false) :
    ∀ i lm fd, (MapState.loadTrace envs s).get? i = some (lm, fd) →
      (fd = true ↔ (lm = true ∧
        ∀ j lm2 fd2, j < i →
          (MapState.loadTrace envs s).get? j = some (lm2, fd2) →
            lm2 = false)) := by
  induction envs generalizing s with
  | nil =>
    intro i lm fd hg
    simp [MapState.loadTrace] at hg
  | cons e es ih =>
    intro i lm fd hg
    have hfe := renderTick_fired_eq e s
    rw [h] at hfe
    simp only [Bool.not_false, Bool.and_true] at hfe
    cases i with
    | zero =>
      simp only [MapState.loadTrace, List.get?_cons_zero, Option.some.injEq,
        Prod.mk.injEq] at hg
      obtain ⟨hlm, hfd⟩ := hg
      subst hlm hfd
      rw [hfe]
      exact ⟨fun hl => ⟨hl, fun j lm2 fd2 hj _ => absurd hj (Nat.not_lt_zero j)⟩,
        fun hp => hp.1⟩
    | succ i =>
      simp only [MapState.loadTrace, List.get?_cons_succ] at hg
      by_cases hf : (MapState.renderTick e s).firedLoad = true
      · have hflag : (MapState.renderTick e s).state.loadedFlag = true := by
          rw [renderTick_state_loadedFlag, hf, Bool.true_or]
        have hnf := loadTrace_no_fire es (MapState.renderTick e s).state hflag
          i lm fd hg
        subst hnf
        constructor
        · intro hc
          exact absurd hc (by simp)
        · rintro ⟨hlmt, hall⟩
          have h0 := hall 0 (MapState.renderTick e s).loadedMid
            (MapState.renderTick e s).firedLoad (Nat.succ_pos i)
            (by simp [MapState.loadTrace])
          rw [← hfe] at h0
          rw [hf] at h0
          exact absurd h0 (by simp)
      · have hfF : (MapState.renderTick e s).firedLoad = false :=
          Bool.eq_false_iff.mpr hf
        have hlmF : (MapState.renderTick e s).loadedMid = false := by
          rw [← hfe]
          exact hfF
        have hflag : (MapState.renderTick e s).state.loadedFlag = false := by
          rw [renderTick_state_loadedFlag, hfF, Bool.false_or]
          exact h
        rw [ih (MapState.renderTick e s).state hflag i lm fd hg]
        constructor
        · rintro ⟨hlmt, hall⟩
          refine ⟨hlmt, ?_⟩
          intro j lm2 fd2 hj hg2
          cases j with
          | zero =>
            simp only [MapState.loadTrace, List.get?_cons_zero,
              Option.some.injEq, Prod.mk.injEq] at hg2
            rw [← hg2.1]
            exact hlmF
          | succ j =>
            simp only [MapState.loadTrace, List.get?_cons_succ] at hg2
            exact hall j lm2 fd2 (Nat.lt_of_succ_lt_succ hj) hg2
        · rintro ⟨hlmt, hall⟩
          refine ⟨hlmt, ?_⟩
          intro j lm2 fd2 hj hg2
          exact hall (j + 1) lm2 fd2 (Nat.succ_lt_succ hj)
            (by simpa [MapState.loadTrace] using hg2)

/-- Witness for C2 on a one-tick trace from a fresh map state. -/
theorem load_fires_once_witness :
    (MapState.mk true false false false 1 false false none 0 0).loadedFlag
        = false ∧
    ∀ i lm fd,
      (MapState.loadTrace [RenderEnv.mk 1 false false true]
        (MapState.mk true false false false 1 false false none 0 0)).get? i
          = some (lm, fd) →
      (fd = true ↔ (lm = true ∧
        ∀ j lm2 fd2, j < i →
          (MapState.loadTrace [RenderEnv.mk 1 false false true]
            (MapState.mk true false false false 1 false false none 0 0)).get? j
              = some (lm2, fd2) → lm2 = false)) :=
  ⟨rfl, load_fires_once [RenderEnv.mk 1 false false true]
    (MapState.mk true false false false 1 false false none 0 0) rfl⟩

/-- Removing the first match distributes over an append whose prefix has
no match. -/
theorem removeFirst_append_of_none {α : Type} (p : α → Bool) (l l2 : List α)
    (h : ∀ a ∈ l, p a = false) :
    removeFirst p (l ++ l2) = l ++ removeFirst p l2 := by
  induction l with
  | nil => rfl
  | cons a l ih =>
    have ha := h a (List.mem_cons_self a l)
    simp [removeFirst, ha, ih (fun x hx => h x (List.mem_cons_of_mem _ hx))]

/-- Searching skips an unmatching prefix. -/
theorem find?_append_of_none {α : Type} (p : α → Bool) (l l2 : List α)
    (h : ∀ a ∈ l, p a = false) :
    (l ++ l2).find? p = l2.find? p := by
  induction l with
  | nil => rfl
  | cons a l ih =>
    simp [List.find?, h a (List.mem_cons_self a l),
      ih (fun x hx => h x (List.mem_cons_of_mem _ hx))]

/-- `off` after an `on` that installed the two enter/leave delegates
removes exactly the appended record and its two raw subscriptions, when
the pre-existing raw registry has no colliding pair and no earlier record
matches the triple. -/
theorem off_on_two (type : EvType) (layer listener n m : ℕ)
    (del : List (EvType × DelegatedListener)) (raw : List (EvType × ℕ))
    (ev1 ev2 : EvType)
    (hfresh1 : ∀ a ∈ raw, (a == (ev1, n)) = false)
    (hfresh2 : ∀ a ∈ raw, (a == (ev2, n + 1)) = false)
    (hnone : ∀ e ∈ del, matchesTriple type layer listener e = false) :
    delegatedOff type layer listener
      { delegated := del ++ [(type, ⟨layer, listener, [(ev1, n), (ev2, n + 1)]⟩)],
        rawListeners := raw ++ [(ev1, n), (ev2, n + 1)],
        nextCallbackId := m } =
      { delegated := del, rawListeners := raw, nextCallbackId := m } := by
  have hmt : matchesTriple type layer listener
      (type, ⟨layer, listener, [(ev1, n), (ev2, n + 1)]⟩) = true := by
    simp [matchesTriple]
  have hfind : (del ++ [(type,
      (⟨layer, listener, [(ev1, n), (ev2, n + 1)]⟩ : DelegatedListener))]).find?
        (matchesTriple type layer listener) =
      some (type, ⟨layer, listener, [(ev1, n), (ev2, n + 1)]⟩) := by
    rw [find?_append_of_none _ _ _ hnone]
    simp [List.find?, hmt]
  simp only [delegatedOff, hfind]
  simp only [List.foldl, rawOff]
  rw [removeFirst_append_of_none _ _ _ hfresh1]
  simp only [removeFirst, beq_self_eq_true, if_true]
  rw [removeFirst_append_of_none _ _ _ hfresh2]
  simp only [removeFirst, beq_self_eq_true, if_true, List.append_nil]
  rw [removeFirst_append_of_none _ _ _ hnone]
  simp [removeFirst, hmt]

/-- `off` after an `on` that installed a single delegate for an ordinary
event type removes exactly the appended record and its raw subscription. -/
theorem off_on_one (type : EvType) (layer listener n m : ℕ)
    (del : List (EvType × DelegatedListener)) (raw : List (EvType × ℕ))
    (ev1 : EvType)
    (hfresh1 : ∀ a ∈ raw, (a == (ev1, n)) = false)
    (hnone : ∀ e ∈ del, matchesTriple type layer listener e = false) :
    delegatedOff type layer listener
      { delegated := del ++ [(type, ⟨layer, listener, [(ev1, n)]⟩)],
        rawListeners := raw ++ [(ev1, n)],
        nextCallbackId := m } =
      { delegated := del, rawListeners := raw, nextCallbackId := m } := by
  have hmt : matchesTriple type layer listener
      (type, ⟨layer, listener, [(ev1, n)]⟩) = true := by
    simp [matchesTriple]
  have hfind : (del ++ [(type,
      (⟨layer, listener, [(ev1, n)]⟩ : DelegatedListener))]).find?
        (matchesTriple type layer listener) =
      some (type, ⟨layer, listener, [(ev1, n)]⟩) := by
    rw [find?_append_of_none _ _ _ hnone]
    simp [List.find?, hmt]
  simp only [delegatedOff, hfind]
  simp only [List.foldl, rawOff]
  rw [removeFirst_append_of_none _ _ _ hfresh1]
  simp only [removeFirst, beq_self_eq_true, if_true, List.append_nil]
  rw [removeFirst_append_of_none _ _ _ hnone]
  simp [removeFirst, hmt]

/-- C8: on a well-formed dispatch state (raw callback identities below the
allocator) holding no record for the triple, `off` after the matching `on`
restores both the delegated-listener registry and the raw subscription
registry exactly, and `off` with a triple that matches no registration is
a no-op. -/
theorem off_removes_exact (type : EvType) (layer listener : ℕ)
    (s : DispatchState)
    (hwf : ∀ p ∈ s.rawListeners, p.2 < s.nextCallbackId)
    (hnone : ∀ e ∈ s.delegated, matchesTriple type layer listener e = false) :
    (delegatedOff type layer listener
        (delegatedOn type layer listener s)).delegated = s.delegated ∧
    (delegatedOff type layer listener
        (delegatedOn type layer listener s)).rawListeners = s.rawListeners ∧
    delegatedOff type layer listener s = s := by
  have hfind0 : s.delegated.find? (matchesTriple type layer listener) = none :=
    List.find?_eq_none.mpr (fun x hx => by simp [hnone x hx])
  have hoff0 : delegatedOff type layer listener s = s := by
    simp [delegatedOff, hfind0]
  have hfresh : ∀ (ev : EvType) (m : ℕ), s.nextCallbackId ≤ m →
      ∀ a ∈ s.rawListeners, (a == (ev, m)) = false := by
    intro ev m hm a ha
    have hlt := hwf a ha
    refine beq_eq_false_iff_ne.mpr ?_
    intro hEq
    rw [hEq] at hlt
    simp at hlt
    omega
  by_cases ht : isEnterType type || isLeaveType type
  · have hrec : delegatedOn type layer listener s =
        { delegated := s.delegated ++ [(type,
            ⟨layer, listener, [(EvType.mousemove, s.nextCallbackId),
              (EvType.mouseout, s.nextCallbackId + 1)]⟩)],
          rawListeners := s.rawListeners ++
            [(EvType.mousemove, s.nextCallbackId),
             (EvType.mouseout, s.nextCallbackId + 1)],
          nextCallbackId := s.nextCallbackId + 2 } := by
      simp [delegatedOn, ht, rawOn]
    have hcomp := off_on_two type layer listener s.nextCallbackId
      (s.nextCallbackId + 2) s.delegated s.rawListeners
      EvType.mousemove EvType.mouseout
      (hfresh EvType.mousemove s.nextCallbackId le_rfl)
      (hfresh EvType.mouseout (s.nextCallbackId + 1) (Nat.le_succ _))
      hnone
    rw [hrec, hcomp]
    exact ⟨rfl, rfl, hoff0⟩
  · have hrec : delegatedOn type layer listener s =
        { delegated := s.delegated ++ [(type,
            ⟨layer, listener, [(type, s.nextCallbackId)]⟩)],
          rawListeners := s.rawListeners ++ [(type, s.nextCallbackId)],
          nextCallbackId := s.nextCallbackId + 1 } := by
      simp [delegatedOn, ht, rawOn]
    have hcomp := off_on_one type layer listener s.nextCallbackId
      (s.nextCallbackId + 1) s.delegated s.rawListeners type
      (hfresh type s.nextCallbackId le_rfl)
      hnone
    rw [hrec, hcomp]
    exact ⟨rfl, rfl, hoff0⟩

/-- Witness for C8: registering and unregistering a `click` listener on an
empty dispatch state. -/
theorem off_removes_exact_witness :
    (∀ p ∈ (DispatchState.mk [] [] 0).rawListeners,
      p.2 < (DispatchState.mk [] [] 0).nextCallbackId) ∧
    (∀ e ∈ (DispatchState.mk [] [] 0).delegated,
      matchesTriple EvType.click 1 2 e = false) ∧
    ((delegatedOff EvType.click 1 2
        (delegatedOn EvType.click 1 2 (DispatchState.mk [] [] 0))).delegated
        = (DispatchState.mk [] [] 0).delegated ∧
      (delegatedOff EvType.click 1 2
        (delegatedOn EvType.click 1 2 (DispatchState.mk [] [] 0))).rawListeners
        = (DispatchState.mk [] [] 0).rawListeners ∧
      delegatedOff EvType.click 1 2 (DispatchState.mk [] [] 0)
        = DispatchState.mk [] [] 0) :=
  ⟨by simp, by simp,
    off_removes_exact EvType.click 1 2 (DispatchState.mk [] [] 0)
      (by simp) (by simp)⟩
